import Mathlib

/-!
Verification of the DAO bootstrap orchestrator of `src/hooks/useAutocrat.ts`
(the `useAutocrat` hook of the meta-dao frontend).

The TypeScript source is shallowly embedded: public keys are a small inductive
type separating externally supplied keys (`env`), freshly generated keypairs
(`fresh`, numbered by a generation counter threaded through the run) and
program-derived addresses; `BN` values are `Nat` (the nonces are 64-bit values
built with `or`/`shln`, embedded as `Nat.lor`/`Nat.shiftLeft`); transactions
are records of instructions, fee payer, recent blockhash and applied
signatures; every network or wallet interaction of a run is recorded, in
program order, in a trace of events.  `initializeDao` returns `none` exactly
when the source's early-return precondition check fires (in the source nothing
has happened at that point: no await has been reached), and otherwise `some`
of a `Run` record collecting the trace, the assembled transactions, the batch
handed to `signAllTransactions` and the submitted transactions.
-/

/-- Public keys.  `env` keys are supplied from outside the orchestrator
(wallet public key, token mints, program ids), `fresh n` is the `n`-th keypair
produced by `Keypair.generate()` during a run, and the remaining constructors
mirror the deterministic derivations used by the source:
`pdaStr s owner` is `findProgramAddressSync([utf8(s)], owner)`,
`pdaKey k owner` is `findProgramAddressSync([k.toBuffer()], owner)`,
`pdaStrKey s k owner` is `findProgramAddressSync([utf8(s), k.toBuffer()], owner)`,
and `ata mint owner` is `getAssociatedTokenAddressSync(mint, owner, true)`. -/
inductive PubKey where
  | env : String → PubKey
  | fresh : Nat → PubKey
  | pdaStr : String → PubKey → PubKey
  | pdaKey : PubKey → PubKey → PubKey
  | pdaStrKey : String → PubKey → PubKey → PubKey
  | ata : PubKey → PubKey → PubKey
deriving DecidableEq, Repr

/-- A generated keypair, reduced to its public key (secrets play no role in the
claims). -/
structure Keypair where
  publicKey : PubKey
deriving DecidableEq, Repr

/-- Embedding of `Keypair.generate()`: the keypair-generation counter `c` is
threaded explicitly; the `c`-th generated keypair has public key `fresh c`. -/
def Keypair.generate (c : Nat) : Keypair × Nat :=
  (⟨PubKey.fresh c⟩, c + 1)

/-- From `useAutocrat.ts`: `new PublicKey('meta3cxKzFBmWYgCVozmvCQAS3y9b3fGxrG9HkHL7Wi')`. -/
def autocratProgramId : PubKey := PubKey.env "meta3cxKzFBmWYgCVozmvCQAS3y9b3fGxrG9HkHL7Wi"

/-- From `useAutocrat.ts`: `OPENBOOK_PROGRAM_ID`. -/
def OPENBOOK_PROGRAM_ID : PubKey := PubKey.env "opnb2LAfJYbRMAHHvqjCwQxanZn7ReEHp1k81EohpZb"

/-- From `useAutocrat.ts`: `OPENBOOK_TWAP_PROGRAM_ID`. -/
def OPENBOOK_TWAP_PROGRAM_ID : PubKey := PubKey.env "2qjEsiMtWxAdqUSdaGM28pJRMtodnnkHZEoadc6JcFCb"

/-- From `useAutocrat.ts`: `const BooksideSpace = 90944 + 8;`. -/
def BooksideSpace : Nat := 90944 + 8

/-- From `useAutocrat.ts`: `const EventHeapSpace = 91280 + 8;`. -/
def EventHeapSpace : Nat := 91280 + 8

/-- Oracle configuration passed to `createMarket`.  The source value
`{ confFilter: 0.1, maxStalenessSlots: 100 }` carries the fractional
confidence filter; it is embedded in tenths (`confFilterTenths = 1`
represents `0.1`). -/
structure OracleConfigParams where
  confFilterTenths : Nat
  maxStalenessSlots : Nat
deriving DecidableEq, Repr

/-- The instructions assembled by the orchestrator, with the accounts each one
references.  `createAccount` is `SystemProgram.createAccount`; `createMarket`
is the openbook `createMarket` method with its full account map;
`createTwapMarket` is the TWAP wrapper's method; `initializeDaoIx` is the
autocrat `initializeDao` method; `initializeVaultIx` stands for the
conditional-vault initialization built by `initializeVault`. -/
inductive Ix where
  | createAccount (fromPubkey newAccountPubkey : PubKey) (lamports space : Nat)
      (programId : PubKey)
  | createMarket (name : String) (oracleConfigParams : OracleConfigParams)
      (quoteLotSize baseLotSize makerFee takerFee timeExpiry : Nat)
      (market marketAuthority bids asks eventHeap payer marketBaseVault
        marketQuoteVault baseMint quoteMint : PubKey)
      (oracleA oracleB : Option PubKey)
      (collectFeeAdmin : PubKey)
      (openOrdersAdmin consumeEventsAdmin closeMarketAdmin : Option PubKey)
      (eventAuthority programArg : PubKey)
  | createTwapMarket (windowSize : Nat) (market twapMarket payer : PubKey)
  | initializeDaoIx (dao metaMint usdcMint : PubKey)
  | initializeVaultIx (vault settlementAuthority underlyingTokenMint : PubKey)
      (nonce : Nat)
deriving DecidableEq, Repr

/-- The accounts referenced by an instruction (`null` accounts of the source
are `none` and reference nothing). -/
def Ix.accounts : Ix → List PubKey
  | .createAccount fromPubkey newAccountPubkey _ _ _ => [fromPubkey, newAccountPubkey]
  | .createMarket _ _ _ _ _ _ _ market marketAuthority bids asks eventHeap payer
      marketBaseVault marketQuoteVault baseMint quoteMint oracleA oracleB
      collectFeeAdmin openOrdersAdmin consumeEventsAdmin closeMarketAdmin
      eventAuthority programArg =>
    [market, marketAuthority, bids, asks, eventHeap, payer, marketBaseVault,
      marketQuoteVault, baseMint, quoteMint] ++ oracleA.toList ++ oracleB.toList ++
      [collectFeeAdmin] ++ openOrdersAdmin.toList ++ consumeEventsAdmin.toList ++
      closeMarketAdmin.toList ++ [eventAuthority, programArg]
  | .createTwapMarket _ market twapMarket payer => [market, twapMarket, payer]
  | .initializeDaoIx dao metaMint usdcMint => [dao, metaMint, usdcMint]
  | .initializeVaultIx vault settlementAuthority underlyingTokenMint _ =>
    [vault, settlementAuthority, underlyingTokenMint]

/-- An `@solana/web3.js` `Transaction`: an instruction list, a fee payer and a
recent blockhash (both unset on construction), and the signatures that have
been applied to it (recorded by signer public key). -/
structure Transaction where
  instructions : List Ix := []
  feePayer : Option PubKey := none
  recentBlockhash : Option Nat := none
  signatures : List PubKey := []
deriving DecidableEq, Repr

/-- An argument of `Transaction.add`, which in the source accepts both whole
`Transaction`s and bare `TransactionInstruction`s. -/
inductive TxItem where
  | tx : Transaction → TxItem
  | ix : Ix → TxItem
deriving DecidableEq, Repr

/-- The instructions an `add` argument contributes: a `Transaction` argument
contributes its instruction list, a bare instruction contributes itself. -/
def TxItem.instructions : TxItem → List Ix
  | .tx t => t.instructions
  | .ix i => [i]

/-- Embedding of `Transaction.add(...items)`: appends the instructions of the
items, flattening `Transaction` arguments, to the receiver's instruction
list. -/
def Transaction.add (t : Transaction) (items : List TxItem) : Transaction :=
  { t with instructions := t.instructions ++ (items.map TxItem.instructions).flatten }

/-- Embedding of `Transaction.sign(...signers)`: sets the transaction's
signatures to those of the given signers. -/
def Transaction.sign (t : Transaction) (signers : List Keypair) : Transaction :=
  { t with signatures := signers.map Keypair.publicKey }

/-- Embedding of the wallet's part of `signAllTransactions`: the wallet adds
its own signature to the ones already applied. -/
def walletSignTransaction (walletPk : PubKey) (t : Transaction) : Transaction :=
  { t with signatures := t.signatures ++ [walletPk] }

/-- Names for the six transactions assembled by `initializeDao`, used to
identify transactions in the event trace. -/
inductive TxName where
  | baseVaultTx | quoteVaultTx | daoTx | twapsTx | passMarketTx | failMarketTx
deriving DecidableEq, Repr

/-- The observable steps of a run, recorded in program order: the two
connection calls, the fee-payer and recent-blockhash assignments, the partial
(`fresh`-keypair) signatures, the single wallet `signAllTransactions` call and
the `sendRawTransaction` submissions. -/
inductive Event where
  | getMinimumBalanceForRentExemption (size : Nat)
  | getLatestBlockhash
  | setFeePayer (t : TxName) (pk : PubKey)
  | setRecentBlockhash (t : TxName) (blockhash : Nat)
  | partialSign (t : TxName) (signers : List PubKey)
  | signAllTransactions (batch : List TxName)
  | sendRawTransaction (t : TxName)
deriving DecidableEq, Repr

/-- Whether an event is the `connection.getLatestBlockhash()` call. -/
def Event.isGetLatestBlockhash : Event → Bool
  | .getLatestBlockhash => true
  | _ => false

/-- Result shape of the transaction builders: a transaction plus the fresh
keypairs that must co-sign it (`{ tx, signers }` in the source). -/
structure TxWithSigners where
  tx : Transaction
  signers : List Keypair
deriving DecidableEq, Repr

/-- Embedding of `createProgramAccount(program, authority, size)`: fetch the
rent-exempt minimum for `size`, generate a fresh keypair as the new account's
address, and build a transaction holding one `SystemProgram.createAccount`
instruction funded by `authority`, owned by the given program.  Returns the
builder result, the advanced keypair counter and the emitted trace. -/
def createProgramAccount (rentExemption : Nat → Nat) (programId : PubKey)
    (authority : PubKey) (size : Nat) (c : Nat) :
    TxWithSigners × Nat × List Event :=
  let lamports := rentExemption size
  let (address, c') := Keypair.generate c
  let tx := Transaction.add {} [TxItem.ix
    (Ix.createAccount authority address.publicKey lamports size programId)]
  ({ tx := tx, signers := [address] }, c',
    [Event.getMinimumBalanceForRentExemption size])

/-- Result shape of `createOpenbookMarket`:
`{ signers, instructions }` in the source, where `instructions` mixes the
three account-creation `Transaction`s and the final `createMarket`
instruction. -/
structure OpenbookMarketResult where
  signers : List Keypair
  instructions : List TxItem
deriving DecidableEq, Repr

/-- Embedding of `createOpenbookMarket`: provision the bid side, ask side and
event heap through `createProgramAccount` (sizes `BooksideSpace`,
`BooksideSpace`, `EventHeapSpace`), derive the market authority, the two
associated token vaults and the event authority, and return the three
account-creation transactions followed by the `createMarket` instruction,
together with the provisioned accounts' keypairs as the required signers. -/
def createOpenbookMarket (rentExemption : Nat → Nat) (programId : PubKey)
    (creator baseMint quoteMint : PubKey) (name : String)
    (quoteLotSize baseLotSize makerFee takerFee timeExpiry : Nat)
    (oracleA oracleB openOrdersAdmin consumeEventsAdmin closeMarketAdmin : Option PubKey)
    (oracleConfigParams : OracleConfigParams) (market : Keypair)
    (collectFeeAdmin : Option PubKey) (c : Nat) :
    OpenbookMarketResult × Nat × List Event :=
  let (bids, c1, e1) := createProgramAccount rentExemption programId creator BooksideSpace c
  let (asks, c2, e2) := createProgramAccount rentExemption programId creator BooksideSpace c1
  let (eventHeap, c3, e3) :=
    createProgramAccount rentExemption programId creator EventHeapSpace c2
  let marketAuthority := PubKey.pdaStrKey "Market" market.publicKey programId
  let baseVault := PubKey.ata baseMint marketAuthority
  let quoteVault := PubKey.ata quoteMint marketAuthority
  let eventAuthority := PubKey.pdaStr "__event_authority" programId
  ({ signers := bids.signers ++ asks.signers ++ eventHeap.signers,
     instructions := [TxItem.tx bids.tx, TxItem.tx asks.tx, TxItem.tx eventHeap.tx,
       TxItem.ix (Ix.createMarket name oracleConfigParams quoteLotSize baseLotSize
         makerFee takerFee timeExpiry market.publicKey marketAuthority
         ((bids.signers.headD ⟨PubKey.env "<undefined>"⟩).publicKey)
         ((asks.signers.headD ⟨PubKey.env "<undefined>"⟩).publicKey)
         ((eventHeap.signers.headD ⟨PubKey.env "<undefined>"⟩).publicKey)
         creator baseVault quoteVault baseMint quoteMint oracleA oracleB
         (collectFeeAdmin.getD creator) openOrdersAdmin consumeEventsAdmin
         closeMarketAdmin eventAuthority programId)] },
   c3, e1 ++ e2 ++ e3)

/-- Modelled from the spec: `initializeVault` comes from the
`useConditionalVault` hook, which is not among the available sources.  Per the
spec a conditional vault is an escrow account keyed by
`(treasury, mint, nonce)`, and the builder's result must carry, next to the
assembled transaction, the fresh keypairs that must co-sign it (the
commented-out `initializeProposal` code in `useAutocrat.ts` reads the vault
account's address as `signers[0].publicKey`).  It is therefore modelled as:
generate one fresh keypair for the vault account, build a transaction holding
one vault-initialization instruction referencing it, and return that keypair
as the transaction's single required signer. -/
def initializeVault (settlementAuthority underlyingTokenMint : PubKey)
    (nonce : Nat) (c : Nat) : TxWithSigners × Nat :=
  let (vault, c') := Keypair.generate c
  ({ tx := Transaction.add {} [TxItem.ix (Ix.initializeVaultIx vault.publicKey
      settlementAuthority underlyingTokenMint nonce)],
     signers := [vault] }, c')

/-- Embedding of `BN.or` (64-bit bitwise or on the nonce values). -/
def bnOr (x y : Nat) : Nat := x ||| y

/-- Embedding of `BN.shln` (left shift). -/
def bnShln (x k : Nat) : Nat := x <<< k

/-- Nonce of the base-pass vault: the bare base nonce (line 181 of the
source). -/
def basePassVaultNonce (base : Nat) : Nat := base

/-- Nonce of the quote-pass vault: `baseNonce.or(new BN(1).shln(63))`. -/
def quotePassVaultNonce (base : Nat) : Nat := bnOr base (bnShln 1 63)

/-- Nonce of the base-fail vault: `baseNonce.or(new BN(1).shln(62))`. -/
def baseFailVaultNonce (base : Nat) : Nat := bnOr base (bnShln 1 62)

/-- Nonce of the quote-fail vault: `baseNonce.or(new BN(3).shln(62))`. -/
def quoteFailVaultNonce (base : Nat) : Nat := bnOr base (bnShln 3 62)

/-- The four vault nonces derived from one base nonce, in source order
(base-pass, quote-pass, base-fail, quote-fail). -/
def vaultNoncesFor (base : Nat) : List Nat :=
  [basePassVaultNonce base, quotePassVaultNonce base,
    baseFailVaultNonce base, quoteFailVaultNonce base]

/-- The Dao address: `findProgramAddressSync([utf8('WWCACOTMICMIBMHAFTTWYGHMB')],
programId)`. -/
def dao : PubKey := PubKey.pdaStr "WWCACOTMICMIBMHAFTTWYGHMB" autocratProgramId

/-- The treasury address: `findProgramAddressSync([dao.toBuffer()], programId)`. -/
def daoTreasury : PubKey := PubKey.pdaKey dao autocratProgramId

/-- The cached on-chain Dao account, reduced to the field the orchestrator
reads. -/
structure DaoState where
  proposalCount : Nat
deriving DecidableEq, Repr

/-- Embedding of `new BN(daoState?.proposalCount || 0)`. -/
def baseNonce (daoState : Option DaoState) : Nat :=
  (daoState.map DaoState.proposalCount).getD 0

/-- JavaScript truthiness of a `PublicKey` value: `findProgramAddressSync`
returns an object (it throws rather than return `null`), and every object is
truthy. -/
def jsTruthy (_ : PubKey) : Bool := true

/-- The hook's `daoState` after the fetch effect has run, had the fetch
succeeded with `fetched`: the effect body guards the fetch with `if (!dao)`,
so the fetch happens only when the derived Dao address is falsy; otherwise the
state keeps its initial `undefined`. -/
def daoStateAfterFetchEffect (fetched : DaoState) : Option DaoState :=
  if !(jsTruthy dao) then some fetched else none

/-- A token record as exposed by `useTokens`, reduced to its (possibly
missing) public key. -/
structure Token where
  publicKey : Option PubKey
deriving DecidableEq, Repr

/-- The token map: `tokens?.meta` / `tokens?.usdc` may each be missing. -/
structure Tokens where
  meta : Option Token
  usdc : Option Token
deriving DecidableEq, Repr

/-- The wallet adapter, reduced to the two members the orchestrator checks:
`wallet?.publicKey` and the presence of the `signAllTransactions`
capability. -/
structure Wallet where
  publicKey : Option PubKey
  signAllTransactions : Bool
deriving DecidableEq, Repr

/-- The orchestrator's environment: the wallet and token map (each level
optional, mirroring the optional chaining in the precondition check), whether
a connection is present, and the connection's behaviour (the blockhash
returned by `getLatestBlockhash()` and the rent-exemption oracle). -/
structure Env where
  wallet : Option Wallet
  tokens : Option Tokens
  connection : Bool
  latestBlockhash : Nat
  rentExemption : Nat → Nat

/-- The value of `tokens?.meta?.publicKey`. -/
def Env.metaPublicKey (e : Env) : Option PubKey :=
  e.tokens.bind fun ts => ts.meta.bind fun t => t.publicKey

/-- The value of `tokens?.usdc?.publicKey`. -/
def Env.usdcPublicKey (e : Env) : Option PubKey :=
  e.tokens.bind fun ts => ts.usdc.bind fun t => t.publicKey

/-- The value of `wallet?.publicKey`. -/
def Env.walletPublicKey (e : Env) : Option PubKey :=
  e.wallet.bind fun w => w.publicKey

/-- Truthiness of `wallet.signAllTransactions` (false when the wallet is
absent; the source only evaluates it after `wallet?.publicKey` passed). -/
def Env.walletCanSignAll (e : Env) : Bool :=
  (e.wallet.map Wallet.signAllTransactions).getD false

/-- Everything a completed `initializeDao` run produced: the inputs it
resolved, the event trace in program order, the intermediate builder results,
the six assembled transactions in their final states, the batch handed to
`signAllTransactions` (keyed by transaction name), the wallet-signed batch,
the submitted transaction names, the four vault nonces and all fresh keypair
public keys in generation order. -/
structure Run where
  metaMint : PubKey
  usdcMint : PubKey
  walletPk : PubKey
  blockhash : Nat
  rentExemption : Nat → Nat
  baseNonceUsed : Nat
  trace : List Event
  basePassVault : TxWithSigners
  quotePassVault : TxWithSigners
  baseFailVault : TxWithSigners
  quoteFailVault : TxWithSigners
  openbookPassMarketKP : Keypair
  openbookFailMarketKP : Keypair
  openbookTwapPassMarket : PubKey
  openbookTwapFailMarket : PubKey
  openbookPassMarket : OpenbookMarketResult
  openbookFailMarket : OpenbookMarketResult
  createPassTwapMarketIx : Ix
  createFailTwapMarketIx : Ix
  baseVaultTx : Transaction
  quoteVaultTx : Transaction
  daoTx : Transaction
  passMarketTx : Transaction
  failMarketTx : Transaction
  twapsTx : Transaction
  txs : List (TxName × Transaction)
  signedTxs : List (TxName × Transaction)
  submitted : List TxName
  vaultNonces : List Nat
  freshKeys : List PubKey

/-- The straight-line body of `initializeDao` (everything after the
precondition check), embedded statement by statement in source order.
`metaPk`, `usdcPk`, `walletPk` are the resolved precondition values, `bh` and
`rentExemption` the connection's behaviour, `base` the base nonce.  The
keypair counter starts at 0 for the run. -/
def initializeDaoBody (metaPk usdcPk walletPk : PubKey) (bh : Nat)
    (rentExemption : Nat → Nat) (base : Nat) : Run :=
  let (basePassVault, c1) :=
    initializeVault daoTreasury metaPk (basePassVaultNonce base) 0
  let (quotePassVault, c2) :=
    initializeVault daoTreasury usdcPk (quotePassVaultNonce base) c1
  let (baseFailVault, c3) :=
    initializeVault daoTreasury metaPk (baseFailVaultNonce base) c2
  let (quoteFailVault, c4) :=
    initializeVault daoTreasury usdcPk (quoteFailVaultNonce base) c3
  let (openbookPassMarketKP, c5) := Keypair.generate c4
  let openbookTwapPassMarket := PubKey.pdaStrKey "twap_market"
    openbookPassMarketKP.publicKey OPENBOOK_TWAP_PROGRAM_ID
  let (openbookPassMarket, c6, passEvents) :=
    createOpenbookMarket rentExemption OPENBOOK_PROGRAM_ID walletPk metaPk usdcPk
      "Pass-Market" 100 1000000000 0 0 0 none none (some openbookTwapPassMarket)
      none (some openbookTwapPassMarket) ⟨1, 100⟩ openbookPassMarketKP none c5
  let createPassTwapMarketIx := Ix.createTwapMarket 1000
    openbookPassMarketKP.publicKey openbookTwapPassMarket walletPk
  let (openbookFailMarketKP, c7) := Keypair.generate c6
  let openbookTwapFailMarket := PubKey.pdaStrKey "twap_market"
    openbookFailMarketKP.publicKey OPENBOOK_TWAP_PROGRAM_ID
  let (openbookFailMarket, c8, failEvents) :=
    createOpenbookMarket rentExemption OPENBOOK_PROGRAM_ID walletPk metaPk usdcPk
      "fMETA/fUSDC" 100 1000000000 0 0 0 none none (some openbookTwapFailMarket)
      none (some openbookTwapFailMarket) ⟨1, 100⟩ openbookFailMarketKP none c7
  let createFailTwapMarketIx := Ix.createTwapMarket 1000
    openbookFailMarketKP.publicKey openbookTwapFailMarket walletPk
  let baseVaultTx := Transaction.add {} [TxItem.tx basePassVault.tx, TxItem.tx baseFailVault.tx]
  let quoteVaultTx := Transaction.add {} [TxItem.tx quotePassVault.tx, TxItem.tx quoteFailVault.tx]
  let daoTx := Transaction.add {} [TxItem.ix (Ix.initializeDaoIx dao metaPk usdcPk)]
  let passMarketTx := Transaction.add {} openbookPassMarket.instructions
  let failMarketTx := Transaction.add {} openbookFailMarket.instructions
  let twapsTx := Transaction.add {} [TxItem.ix createPassTwapMarketIx, TxItem.ix createFailTwapMarketIx]
  let baseVaultTx := { baseVaultTx with feePayer := some walletPk, recentBlockhash := some bh }
  let quoteVaultTx := { quoteVaultTx with feePayer := some walletPk, recentBlockhash := some bh }
  let daoTx := { daoTx with feePayer := some walletPk, recentBlockhash := some bh }
  let twapsTx := { twapsTx with feePayer := some walletPk, recentBlockhash := some bh }
  let passMarketTx := { passMarketTx with feePayer := some walletPk, recentBlockhash := some bh }
  let failMarketTx := { failMarketTx with feePayer := some walletPk, recentBlockhash := some bh }
  let baseVaultSigners := basePassVault.signers ++ baseFailVault.signers
  let quoteVaultSigners := quotePassVault.signers ++ quoteFailVault.signers
  let passMarketSigners := openbookPassMarket.signers ++ [openbookPassMarketKP]
  let failMarketSigners := openbookFailMarket.signers ++ [openbookFailMarketKP]
  let baseVaultTx := baseVaultTx.sign baseVaultSigners
  let quoteVaultTx := quoteVaultTx.sign quoteVaultSigners
  let passMarketTx := passMarketTx.sign passMarketSigners
  let failMarketTx := failMarketTx.sign failMarketSigners
  let txs := [(TxName.passMarketTx, passMarketTx), (TxName.failMarketTx, failMarketTx),
    (TxName.baseVaultTx, baseVaultTx), (TxName.quoteVaultTx, quoteVaultTx),
    (TxName.daoTx, daoTx)]
  let signedTxs := txs.map fun p => (p.1, walletSignTransaction walletPk p.2)
  let trace := passEvents ++ failEvents ++ [Event.getLatestBlockhash] ++
    [Event.setFeePayer TxName.baseVaultTx walletPk,
     Event.setRecentBlockhash TxName.baseVaultTx bh,
     Event.setFeePayer TxName.quoteVaultTx walletPk,
     Event.setRecentBlockhash TxName.quoteVaultTx bh,
     Event.setFeePayer TxName.daoTx walletPk,
     Event.setRecentBlockhash TxName.daoTx bh,
     Event.setFeePayer TxName.twapsTx walletPk,
     Event.setRecentBlockhash TxName.twapsTx bh,
     Event.setFeePayer TxName.passMarketTx walletPk,
     Event.setRecentBlockhash TxName.passMarketTx bh,
     Event.setFeePayer TxName.failMarketTx walletPk,
     Event.setRecentBlockhash TxName.failMarketTx bh] ++
    [Event.partialSign TxName.baseVaultTx (baseVaultSigners.map Keypair.publicKey),
     Event.partialSign TxName.quoteVaultTx (quoteVaultSigners.map Keypair.publicKey),
     Event.partialSign TxName.passMarketTx (passMarketSigners.map Keypair.publicKey),
     Event.partialSign TxName.failMarketTx (failMarketSigners.map Keypair.publicKey)] ++
    [Event.signAllTransactions (txs.map Prod.fst)] ++
    (signedTxs.map fun p => Event.sendRawTransaction p.1)
  { metaMint := metaPk, usdcMint := usdcPk, walletPk := walletPk, blockhash := bh,
    rentExemption := rentExemption, baseNonceUsed := base, trace := trace,
    basePassVault := basePassVault, quotePassVault := quotePassVault,
    baseFailVault := baseFailVault, quoteFailVault := quoteFailVault,
    openbookPassMarketKP := openbookPassMarketKP,
    openbookFailMarketKP := openbookFailMarketKP,
    openbookTwapPassMarket := openbookTwapPassMarket,
    openbookTwapFailMarket := openbookTwapFailMarket,
    openbookPassMarket := openbookPassMarket, openbookFailMarket := openbookFailMarket,
    createPassTwapMarketIx := createPassTwapMarketIx,
    createFailTwapMarketIx := createFailTwapMarketIx,
    baseVaultTx := baseVaultTx, quoteVaultTx := quoteVaultTx, daoTx := daoTx,
    passMarketTx := passMarketTx, failMarketTx := failMarketTx, twapsTx := twapsTx,
    txs := txs, signedTxs := signedTxs, submitted := signedTxs.map Prod.fst,
    vaultNonces := vaultNoncesFor base,
    freshKeys := (List.range c8).map PubKey.fresh }

/-- Embedding of `initializeDao`: the precondition check
(`!tokens?.meta?.publicKey || !tokens?.usdc?.publicKey || !wallet?.publicKey
|| !wallet.signAllTransactions || !connection`) returns early with `none`
(nothing has been executed at that point); otherwise the straight-line body
runs to completion. -/
def initializeDao (env : Env) (daoState : Option DaoState) : Option Run :=
  match env.metaPublicKey, env.usdcPublicKey, env.walletPublicKey,
      env.walletCanSignAll, env.connection with
  | some metaPk, some usdcPk, some walletPk, true, true =>
    some (initializeDaoBody metaPk usdcPk walletPk env.latestBlockhash
      env.rentExemption (baseNonce daoState))
  | _, _, _, _, _ => none

/-- Step function of the signing-order check: walks the trace keeping the
transactions whose fee payer has been set (`fp`), those whose recent
blockhash has been set (`bh`), and whether the batch has already been handed
to the wallet (`seen`).  A partial signature is only in order if the signed
transaction already has both fields set and the wallet hand-off has not
happened yet; the wallet hand-off is only in order if every transaction of
the batch has both fields set. -/
def signingOrderOKAux : List Event → List TxName → List TxName → Bool → Bool
  | [], _, _, _ => true
  | Event.setFeePayer t _ :: rest, fp, bh, seen =>
    signingOrderOKAux rest (t :: fp) bh seen
  | Event.setRecentBlockhash t _ :: rest, fp, bh, seen =>
    signingOrderOKAux rest fp (t :: bh) seen
  | Event.partialSign t _ :: rest, fp, bh, seen =>
    decide (t ∈ fp) && decide (t ∈ bh) && !seen && signingOrderOKAux rest fp bh seen
  | Event.signAllTransactions ts :: rest, fp, bh, _ =>
    ts.all (fun t => decide (t ∈ fp) && decide (t ∈ bh)) &&
      signingOrderOKAux rest fp bh true
  | _ :: rest, fp, bh, seen => signingOrderOKAux rest fp bh seen

/-- Whether a trace applies signatures in the required order: every
transaction's fee payer and recent blockhash are set before any signature
(partial or wallet) touches it, and every partial signature precedes the
wallet `signAllTransactions` hand-off. -/
def signingOrderOK (trace : List Event) : Bool :=
  signingOrderOKAux trace [] [] false

/-- A wallet public key for concrete instantiations. -/
def sampleWalletPk : PubKey := PubKey.env "walletPk"

/-- A fully provisioned environment: wallet connected with the
`signAllTransactions` capability, both mints loaded, connection present. -/
def sampleEnv : Env :=
  { wallet := some { publicKey := some sampleWalletPk, signAllTransactions := true },
    tokens := some { meta := some { publicKey := some (PubKey.env "metaMint") },
                     usdc := some { publicKey := some (PubKey.env "usdcMint") } },
    connection := true,
    latestBlockhash := 42,
    rentExemption := fun size => size + 1000 }

/-- `sampleEnv` with a wallet lacking the `signAllTransactions` capability. -/
def sampleEnvNoSignAll : Env :=
  { sampleEnv with
    wallet := some { publicKey := some sampleWalletPk, signAllTransactions := false } }

/-- The run `initializeDao` performs on `sampleEnv` with no cached Dao
state. -/
def sampleRun : Run :=
  initializeDaoBody (PubKey.env "metaMint") (PubKey.env "usdcMint") sampleWalletPk
    42 (fun size => size + 1000) 0

/-- Boolean check of the fresh-co-signer invariant on a batch: for every
transaction of the batch and every fresh key of the run, if the key is
referenced by some instruction of the transaction then the transaction
carries its signature. -/
def freshSignersOK (freshKeys : List PubKey) (txs : List (TxName × Transaction)) : Bool :=
  txs.all fun p => freshKeys.all fun k =>
    !(p.2.instructions.any fun ix => decide (k ∈ ix.accounts)) ||
      decide (k ∈ p.2.signatures)

/-- Characterization of a completed run: `initializeDao` returns `some run`
only when all five preconditions resolved, and then `run` is the straight-line
body applied to the resolved values. -/
theorem initializeDao_some {env : Env} {ds : Option DaoState} {run : Run}
    (h : initializeDao env ds = some run) :
    ∃ m u w, env.metaPublicKey = some m ∧ env.usdcPublicKey = some u ∧
      env.walletPublicKey = some w ∧ env.walletCanSignAll = true ∧
      env.connection = true ∧
      run = initializeDaoBody m u w env.latestBlockhash env.rentExemption
        (baseNonce ds) := by
  unfold initializeDao at h
  split at h
  · next hm hu hw hcan hconn =>
    injection h with h
    exact ⟨_, _, _, hm, hu, hw, hcan, hconn, h.symm⟩
  · exact absurd h (by simp)

/-- Propositional meaning of `freshSignersOK`: when the check passes, every
fresh key referenced inside a transaction of the batch is among that
transaction's applied signatures. -/
theorem freshSignersOK_spec (fk : List PubKey) (txs : List (TxName × Transaction))
    (h : freshSignersOK fk txs = true) :
    ∀ p ∈ txs, ∀ k ∈ fk, (∃ ix ∈ p.2.instructions, k ∈ ix.accounts) →
      k ∈ p.2.signatures := by
  intro p hp k hk ⟨ix, hix, hacc⟩
  simp only [freshSignersOK, List.all_eq_true] at h
  have h2 := h p hp k hk
  simp only [Bool.or_eq_true, Bool.not_eq_true', List.any_eq_false,
    decide_eq_false_iff_not, decide_eq_true_iff] at h2
  rcases h2 with h2 | h2
  · exact absurd hacc (h2 ix hix)
  · exact h2

/-- The low 62 bits of every derived vault nonce recover the base nonce, as
long as the base nonce fits below the role bit-flags. -/
theorem vaultNoncesFor_mod (b : Nat) (hb : b < 2 ^ 62) :
    ∀ x ∈ vaultNoncesFor b, x % 2 ^ 62 = b := by
  have mask : ∀ f, f % 2 ^ 62 = 0 → (b ||| f) % 2 ^ 62 = b := by
    intro f hf
    have h1 : (b ||| f) &&& (2 ^ 62 - 1) =
        (b &&& (2 ^ 62 - 1)) ||| (f &&& (2 ^ 62 - 1)) := by
      rw [Nat.and_comm, Nat.and_or_distrib_left, Nat.and_comm (2 ^ 62 - 1) b,
        Nat.and_comm (2 ^ 62 - 1) f]
    rw [Nat.and_pow_two_sub_one_eq_mod, Nat.and_pow_two_sub_one_eq_mod,
      Nat.and_pow_two_sub_one_eq_mod] at h1
    rw [h1, hf, Nat.or_zero, Nat.mod_eq_of_lt hb]
  intro x hx
  simp only [vaultNoncesFor, basePassVaultNonce, quotePassVaultNonce,
    baseFailVaultNonce, quoteFailVaultNonce, bnOr, bnShln,
    List.mem_cons, List.not_mem_nil, or_false] at hx
  rcases hx with rfl | rfl | rfl | rfl
  · exact Nat.mod_eq_of_lt hb
  · exact mask _ (by decide)
  · exact mask _ (by decide)
  · exact mask _ (by decide)

/-- C1: in every completed `initializeDao` run, the batch handed to the
wallet's `signAllTransactions` consists of exactly the two market
transactions, the two vault transactions and the DAO-initialization
transaction — the TWAP-market transaction is never part of the batch, is
never submitted, and only the five batched transactions (each wallet-signed)
are submitted.  This documents the divergence from the claim: the source
builds `twapsTx`, assigns its fee payer and blockhash, but never pushes it
into `txs`. -/
theorem initializeDao_twapsTx_never_submitted (env : Env) (ds : Option DaoState)
    (run : Run) (h : initializeDao env ds = some run) :
    run.txs.map Prod.fst = [TxName.passMarketTx, TxName.failMarketTx,
      TxName.baseVaultTx, TxName.quoteVaultTx, TxName.daoTx] ∧
    TxName.twapsTx ∉ run.txs.map Prod.fst ∧
    TxName.twapsTx ∉ run.submitted ∧
    run.signedTxs = run.txs.map (fun p => (p.1, walletSignTransaction run.walletPk p.2)) ∧
    run.submitted = run.signedTxs.map Prod.fst := by
  obtain ⟨m, u, w, _, _, _, _, _, rfl⟩ := initializeDao_some h
  have hnames : (initializeDaoBody m u w env.latestBlockhash env.rentExemption
      (baseNonce ds)).txs.map Prod.fst = [TxName.passMarketTx, TxName.failMarketTx,
      TxName.baseVaultTx, TxName.quoteVaultTx, TxName.daoTx] := rfl
  have hsub : (initializeDaoBody m u w env.latestBlockhash env.rentExemption
      (baseNonce ds)).submitted = [TxName.passMarketTx, TxName.failMarketTx,
      TxName.baseVaultTx, TxName.quoteVaultTx, TxName.daoTx] := rfl
  refine ⟨hnames, ?_, ?_, rfl, rfl⟩
  · rw [hnames]; decide
  · rw [hsub]; decide

/-- C1 witness: the divergence theorem instantiated at the sample
environment. -/
theorem initializeDao_twapsTx_never_submitted_witness :
    sampleRun.txs.map Prod.fst = [TxName.passMarketTx, TxName.failMarketTx,
      TxName.baseVaultTx, TxName.quoteVaultTx, TxName.daoTx] ∧
    TxName.twapsTx ∉ sampleRun.txs.map Prod.fst ∧
    TxName.twapsTx ∉ sampleRun.submitted ∧
    sampleRun.signedTxs = sampleRun.txs.map
      (fun p => (p.1, walletSignTransaction sampleRun.walletPk p.2)) ∧
    sampleRun.submitted = sampleRun.signedTxs.map Prod.fst :=
  initializeDao_twapsTx_never_submitted sampleEnv none sampleRun rfl

/-- C2: in every completed `initializeDao` run, `getLatestBlockhash` is
called exactly once, and every transaction of the batch handed to the wallet
carries exactly the fetched blockhash. -/
theorem initializeDao_blockhash_fetched_once_and_shared (env : Env)
    (ds : Option DaoState) (run : Run) (h : initializeDao env ds = some run) :
    run.trace.countP Event.isGetLatestBlockhash = 1 ∧
    run.txs.map (fun p => p.2.recentBlockhash) =
      [some env.latestBlockhash, some env.latestBlockhash, some env.latestBlockhash,
        some env.latestBlockhash, some env.latestBlockhash] ∧
    ∀ p ∈ run.txs, p.2.recentBlockhash = some env.latestBlockhash := by
  obtain ⟨m, u, w, _, _, _, _, _, rfl⟩ := initializeDao_some h
  have hmap : (initializeDaoBody m u w env.latestBlockhash env.rentExemption
      (baseNonce ds)).txs.map (fun p => p.2.recentBlockhash) =
      [some env.latestBlockhash, some env.latestBlockhash, some env.latestBlockhash,
        some env.latestBlockhash, some env.latestBlockhash] := rfl
  refine ⟨rfl, hmap, ?_⟩
  intro p hp
  have hmem := List.mem_map_of_mem (fun p => p.2.recentBlockhash) hp
  rw [hmap] at hmem
  simpa using hmem

/-- C2 witness: the blockhash-consistency theorem at the sample
environment. -/
theorem initializeDao_blockhash_fetched_once_and_shared_witness :
    sampleRun.trace.countP Event.isGetLatestBlockhash = 1 ∧
    sampleRun.txs.map (fun p => p.2.recentBlockhash) =
      [some sampleEnv.latestBlockhash, some sampleEnv.latestBlockhash,
        some sampleEnv.latestBlockhash, some sampleEnv.latestBlockhash,
        some sampleEnv.latestBlockhash] ∧
    ∀ p ∈ sampleRun.txs, p.2.recentBlockhash = some sampleEnv.latestBlockhash :=
  initializeDao_blockhash_fetched_once_and_shared sampleEnv none sampleRun rfl

/-- C3: when the base nonce is 0, the four vault nonces are exactly 0 for
base-pass, 2^63 for quote-pass, 2^62 for base-fail and 3·2^62 for
quote-fail. -/
theorem vault_nonces_at_base_zero (env : Env) (ds : Option DaoState) (run : Run)
    (h : initializeDao env ds = some run) (hb : baseNonce ds = 0) :
    run.vaultNonces = [0, 2 ^ 63, 2 ^ 62, 3 * 2 ^ 62] := by
  obtain ⟨m, u, w, _, _, _, _, _, rfl⟩ := initializeDao_some h
  show vaultNoncesFor (baseNonce ds) = _
  rw [hb]
  decide

/-- C3 witness: the nonce-values theorem at the sample environment with no
cached Dao state. -/
theorem vault_nonces_at_base_zero_witness :
    sampleRun.vaultNonces = [0, 2 ^ 63, 2 ^ 62, 3 * 2 ^ 62] :=
  vault_nonces_at_base_zero sampleEnv none sampleRun rfl rfl

/-- C4 counterexample: the universal nonce-uniqueness claim fails on the
code as stated.  For proposal sequence number `n = 0` the base-fail nonce is
`0 ||| 2^62 = 2^62`, and for sequence number `m = 2^62` the base-pass nonce
is `2^62` itself: two different proposals share a derived vault nonce,
because the bit-flags are OR-ed (not added) onto the sequence number and a
sequence number of `2^62` or larger already occupies the flag bits. -/
theorem vault_nonce_collision_counterexample :
    baseFailVaultNonce 0 ∈ vaultNoncesFor 0 ∧
    basePassVaultNonce (2 ^ 62) ∈ vaultNoncesFor (2 ^ 62) ∧
    (0 : Nat) ≠ 2 ^ 62 ∧
    baseFailVaultNonce 0 = basePassVaultNonce (2 ^ 62) := by decide

/-- C4 (amended): for proposal sequence numbers below `2^62` — the range in
which the sequence number stays clear of the two role-flag bits — the four
derived vault nonces of distinct proposals never collide. -/
theorem vault_nonces_unique_below_flag_bits (n m : Nat) (hn : n < 2 ^ 62)
    (hm : m < 2 ^ 62) (hnm : n ≠ m) :
    ∀ x ∈ vaultNoncesFor n, ∀ y ∈ vaultNoncesFor m, x ≠ y := by
  intro x hx y hy heq
  apply hnm
  rw [← vaultNoncesFor_mod n hn x hx, heq, vaultNoncesFor_mod m hm y hy]

/-- C4 witness: the amended uniqueness theorem applied at proposals 0 and 1,
base-pass against quote-fail. -/
theorem vault_nonces_unique_below_flag_bits_witness :
    basePassVaultNonce 0 ≠ quoteFailVaultNonce 1 :=
  vault_nonces_unique_below_flag_bits 0 1 (by decide) (by decide) (by decide)
    (basePassVaultNonce 0) (by decide) (quoteFailVaultNonce 1) (by decide)

/-- C5: when any precondition is missing — either token mint's public key
unresolved, the wallet public key absent, the `signAllTransactions`
capability missing, or no connection — `initializeDao` returns immediately:
no run happens, so no network call and no side effect is performed. -/
theorem initializeDao_early_return (env : Env) (ds : Option DaoState)
    (h : env.metaPublicKey = none ∨ env.usdcPublicKey = none ∨
      env.walletPublicKey = none ∨ env.walletCanSignAll = false ∨
      env.connection = false) :
    initializeDao env ds = none := by
  unfold initializeDao
  rcases h with h | h | h | h | h <;> rw [h] <;> split <;> simp_all

/-- C5 witness: the early-return theorem at the sample environment whose
wallet lacks `signAllTransactions`. -/
theorem initializeDao_early_return_witness :
    initializeDao sampleEnvNoSignAll none = none :=
  initializeDao_early_return sampleEnvNoSignAll none
    (Or.inr (Or.inr (Or.inr (Or.inl rfl))))

/-- C6: in every completed `initializeDao` run the trace is signing-ordered:
each transaction's fee payer and recent blockhash are set before any
signature (partial or wallet) touches it, and every partial signature with
fresh keypairs precedes the `signAllTransactions` hand-off. -/
theorem initializeDao_signing_order (env : Env) (ds : Option DaoState)
    (run : Run) (h : initializeDao env ds = some run) :
    signingOrderOK run.trace = true := by
  obtain ⟨m, u, w, _, _, _, _, _, rfl⟩ := initializeDao_some h
  rfl

/-- C6 witness: the signing-order theorem at the sample environment. -/
theorem initializeDao_signing_order_witness :
    signingOrderOK sampleRun.trace = true :=
  initializeDao_signing_order sampleEnv none sampleRun rfl

/-- C7: in every completed `initializeDao` run whose externally supplied keys
(the two mints and the wallet key) are environment keys — never equal to the
run's freshly generated keypairs — every fresh keypair referenced inside a
batched transaction's instructions is included in that transaction's applied
signatures before the batch is handed to the wallet. -/
theorem initializeDao_fresh_signers_included (env : Env) (ds : Option DaoState)
    (run : Run) (ms us ws : String) (h : initializeDao env ds = some run)
    (hmeta : env.metaPublicKey = some (PubKey.env ms))
    (husdc : env.usdcPublicKey = some (PubKey.env us))
    (hwallet : env.walletPublicKey = some (PubKey.env ws)) :
    freshSignersOK run.freshKeys run.txs = true ∧
    ∀ p ∈ run.txs, ∀ k ∈ run.freshKeys,
      (∃ ix ∈ p.2.instructions, k ∈ ix.accounts) → k ∈ p.2.signatures := by
  obtain ⟨m, u, w, hm, hu, hw, _, _, rfl⟩ := initializeDao_some h
  rw [hm] at hmeta
  rw [hu] at husdc
  rw [hw] at hwallet
  injection hmeta with hmeta
  injection husdc with husdc
  injection hwallet with hwallet
  subst hmeta husdc hwallet
  exact ⟨rfl, freshSignersOK_spec _ _ rfl⟩

/-- C7 witness: the fresh-co-signer theorem at the sample environment. -/
theorem initializeDao_fresh_signers_included_witness :
    freshSignersOK sampleRun.freshKeys sampleRun.txs = true ∧
    ∀ p ∈ sampleRun.txs, ∀ k ∈ sampleRun.freshKeys,
      (∃ ix ∈ p.2.instructions, k ∈ ix.accounts) → k ∈ p.2.signatures :=
  initializeDao_fresh_signers_included sampleEnv none sampleRun
    "metaMint" "usdcMint" "walletPk" rfl rfl rfl rfl

/-- C8: the batching step groups the instructions exactly as: the base-pass
and base-fail vault creations in one transaction, the quote-pass and
quote-fail vault creations in one transaction, each order-book market's three
account-creations followed by its `createMarket` call in its own transaction,
the two `createTwapMarket` instructions in one transaction, and the
DAO-initialization instruction alone in its own transaction.  Fresh keys are
numbered by generation order: 0 to 3 the four vault accounts, 4 the pass
market, 5 to 7 its bids, asks and event heap, 8 the fail market, 9 to 11 its
bids, asks and event heap. -/
theorem initializeDao_batching_policy (env : Env) (ds : Option DaoState)
    (run : Run) (h : initializeDao env ds = some run) :
    run.baseVaultTx.instructions =
      [Ix.initializeVaultIx (PubKey.fresh 0) daoTreasury run.metaMint
        (basePassVaultNonce run.baseNonceUsed),
       Ix.initializeVaultIx (PubKey.fresh 2) daoTreasury run.metaMint
        (baseFailVaultNonce run.baseNonceUsed)] ∧
    run.quoteVaultTx.instructions =
      [Ix.initializeVaultIx (PubKey.fresh 1) daoTreasury run.usdcMint
        (quotePassVaultNonce run.baseNonceUsed),
       Ix.initializeVaultIx (PubKey.fresh 3) daoTreasury run.usdcMint
        (quoteFailVaultNonce run.baseNonceUsed)] ∧
    run.passMarketTx.instructions =
      [Ix.createAccount run.walletPk (PubKey.fresh 5)
         (run.rentExemption BooksideSpace) BooksideSpace OPENBOOK_PROGRAM_ID,
       Ix.createAccount run.walletPk (PubKey.fresh 6)
         (run.rentExemption BooksideSpace) BooksideSpace OPENBOOK_PROGRAM_ID,
       Ix.createAccount run.walletPk (PubKey.fresh 7)
         (run.rentExemption EventHeapSpace) EventHeapSpace OPENBOOK_PROGRAM_ID,
       Ix.createMarket "Pass-Market" ⟨1, 100⟩ 100 1000000000 0 0 0
         (PubKey.fresh 4)
         (PubKey.pdaStrKey "Market" (PubKey.fresh 4) OPENBOOK_PROGRAM_ID)
         (PubKey.fresh 5) (PubKey.fresh 6) (PubKey.fresh 7) run.walletPk
         (PubKey.ata run.metaMint
           (PubKey.pdaStrKey "Market" (PubKey.fresh 4) OPENBOOK_PROGRAM_ID))
         (PubKey.ata run.usdcMint
           (PubKey.pdaStrKey "Market" (PubKey.fresh 4) OPENBOOK_PROGRAM_ID))
         run.metaMint run.usdcMint none none run.walletPk
         (some (PubKey.pdaStrKey "twap_market" (PubKey.fresh 4)
           OPENBOOK_TWAP_PROGRAM_ID))
         none
         (some (PubKey.pdaStrKey "twap_market" (PubKey.fresh 4)
           OPENBOOK_TWAP_PROGRAM_ID))
         (PubKey.pdaStr "__event_authority" OPENBOOK_PROGRAM_ID)
         OPENBOOK_PROGRAM_ID] ∧
    run.failMarketTx.instructions =
      [Ix.createAccount run.walletPk (PubKey.fresh 9)
         (run.rentExemption BooksideSpace) BooksideSpace OPENBOOK_PROGRAM_ID,
       Ix.createAccount run.walletPk (PubKey.fresh 10)
         (run.rentExemption BooksideSpace) BooksideSpace OPENBOOK_PROGRAM_ID,
       Ix.createAccount run.walletPk (PubKey.fresh 11)
         (run.rentExemption EventHeapSpace) EventHeapSpace OPENBOOK_PROGRAM_ID,
       Ix.createMarket "fMETA/fUSDC" ⟨1, 100⟩ 100 1000000000 0 0 0
         (PubKey.fresh 8)
         (PubKey.pdaStrKey "Market" (PubKey.fresh 8) OPENBOOK_PROGRAM_ID)
         (PubKey.fresh 9) (PubKey.fresh 10) (PubKey.fresh 11) run.walletPk
         (PubKey.ata run.metaMint
           (PubKey.pdaStrKey "Market" (PubKey.fresh 8) OPENBOOK_PROGRAM_ID))
         (PubKey.ata run.usdcMint
           (PubKey.pdaStrKey "Market" (PubKey.fresh 8) OPENBOOK_PROGRAM_ID))
         run.metaMint run.usdcMint none none run.walletPk
         (some (PubKey.pdaStrKey "twap_market" (PubKey.fresh 8)
           OPENBOOK_TWAP_PROGRAM_ID))
         none
         (some (PubKey.pdaStrKey "twap_market" (PubKey.fresh 8)
           OPENBOOK_TWAP_PROGRAM_ID))
         (PubKey.pdaStr "__event_authority" OPENBOOK_PROGRAM_ID)
         OPENBOOK_PROGRAM_ID] ∧
    run.twapsTx.instructions =
      [Ix.createTwapMarket 1000 (PubKey.fresh 4)
         (PubKey.pdaStrKey "twap_market" (PubKey.fresh 4) OPENBOOK_TWAP_PROGRAM_ID)
         run.walletPk,
       Ix.createTwapMarket 1000 (PubKey.fresh 8)
         (PubKey.pdaStrKey "twap_market" (PubKey.fresh 8) OPENBOOK_TWAP_PROGRAM_ID)
         run.walletPk] ∧
    run.daoTx.instructions = [Ix.initializeDaoIx dao run.metaMint run.usdcMint] := by
  obtain ⟨m, u, w, _, _, _, _, _, rfl⟩ := initializeDao_some h
  exact ⟨rfl, rfl, rfl, rfl, rfl, rfl⟩

/-- C8 witness: the batching-policy theorem at the sample environment,
projected to the per-transaction instruction shapes. -/
theorem initializeDao_batching_policy_witness :
    sampleRun.baseVaultTx.instructions =
      [Ix.initializeVaultIx (PubKey.fresh 0) daoTreasury sampleRun.metaMint
        (basePassVaultNonce sampleRun.baseNonceUsed),
       Ix.initializeVaultIx (PubKey.fresh 2) daoTreasury sampleRun.metaMint
        (baseFailVaultNonce sampleRun.baseNonceUsed)] ∧
    sampleRun.twapsTx.instructions =
      [Ix.createTwapMarket 1000 (PubKey.fresh 4)
         (PubKey.pdaStrKey "twap_market" (PubKey.fresh 4) OPENBOOK_TWAP_PROGRAM_ID)
         sampleRun.walletPk,
       Ix.createTwapMarket 1000 (PubKey.fresh 8)
         (PubKey.pdaStrKey "twap_market" (PubKey.fresh 8) OPENBOOK_TWAP_PROGRAM_ID)
         sampleRun.walletPk] ∧
    sampleRun.daoTx.instructions =
      [Ix.initializeDaoIx dao sampleRun.metaMint sampleRun.usdcMint] := by
  have h := initializeDao_batching_policy sampleEnv none sampleRun rfl
  exact ⟨h.1, h.2.2.2.2.1, h.2.2.2.2.2⟩

/-- C9: `createProgramAccount` fetches the rent-exempt minimum for exactly
the requested size, generates a fresh keypair as the new account's address,
and emits one create-account instruction funded by the initiating signer;
the fixed protocol sizes are 90952 bytes for a book side and 91288 bytes for
the event heap, and `createOpenbookMarket` provisions its bids, asks and
event-heap accounts with exactly those sizes. -/
theorem createProgramAccount_fixed_sizes :
    BooksideSpace = 90952 ∧ EventHeapSpace = 91288 ∧
    (∀ (rent : Nat → Nat) (pid auth : PubKey) (size c : Nat),
      createProgramAccount rent pid auth size c =
        ({ tx := { instructions := [Ix.createAccount auth (PubKey.fresh c)
             (rent size) size pid] },
           signers := [⟨PubKey.fresh c⟩] }, c + 1,
         [Event.getMinimumBalanceForRentExemption size])) ∧
    ∀ (rent : Nat → Nat) (pid creator bMint qMint : PubKey) (name : String)
      (qls bls mf tf te : Nat) (oA oB ooA ceA cmA : Option PubKey)
      (ocp : OracleConfigParams) (mkt : Keypair) (cfA : Option PubKey) (c : Nat),
      (createOpenbookMarket rent pid creator bMint qMint name qls bls mf tf te
        oA oB ooA ceA cmA ocp mkt cfA c).2.2 =
        [Event.getMinimumBalanceForRentExemption BooksideSpace,
         Event.getMinimumBalanceForRentExemption BooksideSpace,
         Event.getMinimumBalanceForRentExemption EventHeapSpace] := by
  refine ⟨rfl, rfl, ?_, ?_⟩
  · intro rent pid auth size c
    rfl
  · intro rent pid creator bMint qMint name qls bls mf tf te oA oB ooA ceA cmA
      ocp mkt cfA c
    rfl

/-- C10: because the fetch effect is guarded by `if (!dao)` and the derived
Dao address is an always-truthy object, the cached Dao state is never
fetched: it stays `undefined` in every reachable state, so the base nonce is
0 and every completed `initializeDao` run derives its four vault nonces from
base nonce 0, regardless of the on-chain proposal counter. -/
theorem daoState_never_fetched (fetched : DaoState) :
    daoStateAfterFetchEffect fetched = none ∧
    baseNonce (daoStateAfterFetchEffect fetched) = 0 ∧
    ∀ (env : Env) (run : Run),
      initializeDao env (daoStateAfterFetchEffect fetched) = some run →
        run.baseNonceUsed = 0 ∧ run.vaultNonces = vaultNoncesFor 0 := by
  refine ⟨rfl, rfl, ?_⟩
  intro env run h
  obtain ⟨m, u, w, _, _, _, _, _, rfl⟩ := initializeDao_some h
  exact ⟨rfl, rfl⟩

/-- C10 witness: the never-fetched theorem at an on-chain proposal counter of
5: the cached state is still `undefined` and the run still uses base nonce
0. -/
theorem daoState_never_fetched_witness :
    daoStateAfterFetchEffect ⟨5⟩ = none ∧
    baseNonce (daoStateAfterFetchEffect ⟨5⟩) = 0 ∧
    sampleRun.baseNonceUsed = 0 ∧ sampleRun.vaultNonces = vaultNoncesFor 0 :=
  ⟨(daoState_never_fetched ⟨5⟩).1, (daoState_never_fetched ⟨5⟩).2.1,
    (daoState_never_fetched ⟨5⟩).2.2 sampleEnv sampleRun rfl⟩
